import Mathlib

/-!
Shallow embedding of the browser glue script `src/templates/js/salt.js` of
the Salt SVG app.  The script keeps three module-level variables
(`saltApp`, `container`, `resizeObserver`), loads a WASM module at
document-ready, forwards mouse events to the application handle and
replaces the container's innerHTML with the markup returned by the
handle's render operation.

The DOM is modelled explicitly: the container element carries its
bounding rectangle (rational coordinates, as JS numbers measuring pixels
can be fractional) and its current innerHTML string.  The opaque WASM
application handle is modelled as an integer internal state together
with pure transition functions for its two operations.  A ghost list of
boundary calls (`calls`) records each invocation of the handle's
operations with its exact arguments, so that theorems can speak about
which arguments crossed the JS/WASM boundary.
-/

/-- Geometry of `getBoundingClientRect()`: left, top, width, height in
CSS pixels (JS numbers, modelled as rationals). -/
structure Rect where
  left : ℚ
  top : ℚ
  width : ℚ
  height : ℚ
deriving Repr, DecidableEq

/-- The container DOM element: its current bounding rectangle and its
current innerHTML content. -/
structure Elem where
  rect : Rect
  innerHTML : String
deriving Repr, DecidableEq

/-- The opaque WASM application handle (`new wasm.SaltApp()`).  Its
hidden internal state is abstracted as an integer; `renderFn` models
`render_svg(width, height)` as a pure function of the internal state and
the two integer dimensions, and `handleFn` models
`handle_mouse_event(type, x, y)` returning the changed flag together
with the successor internal state. -/
structure AppHandle where
  appState : ℤ
  renderFn : ℤ → ℤ → ℤ → String
  handleFn : ℤ → String → ℚ → ℚ → Bool × ℤ

/-- A call crossing the JS/WASM boundary, with its exact arguments. -/
inductive Call where
  | render (w h : ℤ)
  | handle (kind : String) (x y : ℚ)
deriving Repr, DecidableEq

/-- A ResizeObserver instance.  `observing` records whether
`observe(container)` has been called on it and not revoked by
`disconnect()`. -/
structure Observer where
  observing : Bool
deriving Repr, DecidableEq

/-- A DOM mouse event as seen by the listener: its `type` string and its
client coordinates. -/
structure MouseEvent where
  type : String
  clientX : ℚ
  clientY : ℚ
deriving Repr, DecidableEq

/-- One entry reported to the ResizeObserver callback.
`targetIsContainer` abstracts the reference equality test
`entry.target === container`. -/
structure ResizeEntry where
  targetIsContainer : Bool
deriving Repr, DecidableEq

/-- The module-level state of `salt.js`: the three globals
(`saltApp`, `container`, `resizeObserver`), the graveyard of
ResizeObserver instances that were replaced by a later install
(`oldObservers`, still live objects in JS even when unreferenced), the
event types for which a listener is registered on the container
(`listeners`), and the ghost log of boundary calls (`calls`). -/
structure St where
  saltApp : Option AppHandle
  container : Option Elem
  resizeObserver : Option Observer
  oldObservers : List Observer
  listeners : List String
  calls : List Call

/-- `Math.floor` on a JS number. -/
def jsFloor (q : ℚ) : ℤ := Int.floor q

/-- `renderSvg()`: no-op if `saltApp` or `container` is null; otherwise
measures the container, floors width and height, calls
`saltApp.render_svg` with the two integers and assigns the returned
markup to `container.innerHTML` (full replacement). -/
def renderSvg (s : St) : St :=
  match s.saltApp, s.container with
  | some app, some c =>
    let w := jsFloor c.rect.width
    let h := jsFloor c.rect.height
    let markup := app.renderFn app.appState w h
    { s with container := some { c with innerHTML := markup },
             calls := s.calls ++ [ Call.render w h ] }
  | _, _ => s

/-- Error message of the TypeError raised by JS when
`container.getBoundingClientRect()` (or `container.innerHTML = ...`)
is evaluated while `container` is null. -/
def tyErrMsg : String := "TypeError: container is null"

/-- The state and changed flag after the `handle_mouse_event` call of
`handleEvent` (lines: compute `x`, `y` relative to the container's
bounding rect, then call the handle): the app's internal state is
advanced and the call is logged; the returned Bool is the
`stateChanged` flag. -/
def afterHandleCall (s : St) (e : MouseEvent) (app : AppHandle) (c : Elem) : St × Bool :=
  let x := e.clientX - c.rect.left
  let y := e.clientY - c.rect.top
  let r := app.handleFn app.appState e.type x y
  ({ s with saltApp := some { app with appState := r.2 },
            calls := s.calls ++ [ Call.handle e.type x y ] }, r.1)

/-- `handleEvent(event)`: returns immediately if `saltApp` is null;
otherwise reads `container.getBoundingClientRect()` — which throws a
TypeError when `container` is null, modelled by `Except.error` —
computes container-relative coordinates, calls
`saltApp.handle_mouse_event(event.type, x, y)` and re-renders iff the
returned flag is true. -/
def handleEvent (s : St) (e : MouseEvent) : Except String St :=
  match s.saltApp with
  | none => Except.ok s
  | some app =>
    match s.container with
    | none => Except.error tyErrMsg
    | some c =>
      let r := afterHandleCall s e app c
      Except.ok (if r.2 then renderSvg r.1 else r.1)

/-- The fixed set of routed mouse event types. -/
def eventTypes : List String := [ "click", "mousedown", "mouseup", "mousemove" ]

/-- `setupEventListeners()`: no-op if `container` is null; otherwise
registers `handleEvent` for each of the four mouse event types. -/
def setupEventListeners (s : St) : St :=
  match s.container with
  | none => s
  | some _ => { s with listeners := s.listeners ++ eventTypes }

/-- `setupResizeObserver()`: disconnects the previous observer if one
exists, creates a fresh `ResizeObserver` and assigns it to the
module-level variable (the replaced observer object survives in the
graveyard), then calls `observe(container)` on it iff `container` is
non-null. -/
def setupResizeObserver (s : St) : St :=
  let disconnected := s.resizeObserver.map (fun o => { o with observing := false })
  { s with resizeObserver := some { observing := s.container.isSome },
           oldObservers := s.oldObservers ++ disconnected.toList }

/-- The ResizeObserver callback: for each reported entry, if
`entry.target === container && saltApp` then `renderSvg()`. -/
def resizeCallback (s : St) (entries : List ResizeEntry) : St :=
  entries.foldl
    (fun acc e => if e.targetIsContainer && acc.saltApp.isSome then renderSvg acc else acc) s

/-- The six bootstrap steps of `initApp`, in source order. -/
inductive Step where
  | loadModule
  | resolveContainer
  | constructApp
  | initialRender
  | installListeners
  | installResize
deriving Repr, DecidableEq

/-- The full bootstrap sequence in source order. -/
def fullStepOrder : List Step :=
  [ Step.loadModule, Step.resolveContainer, Step.constructApp,
    Step.initialRender, Step.installListeners, Step.installResize ]

/-- The `try` block of `initApp`.  The outcome of the two fallible
steps is supplied as data: `loadRes` is the settlement of
`await import(...)` / `await wasm.default()`, `domC` is what
`document.getElementById` finds (null lookup does not throw), and
`mkApp` is the outcome of `new wasm.SaltApp()`.  On an exception the
partial state at the throw point is returned alongside the message.
The second component is the trace of steps that began executing. -/
def initAppTry (s : St) (loadRes : Except String Unit) (domC : Option Elem)
    (mkApp : Except String AppHandle) : Except (St × String) St × List Step :=
  match loadRes with
  | Except.error msg => (Except.error (s, msg), [ Step.loadModule ])
  | Except.ok _ =>
    let s1 := { s with container := domC }
    match mkApp with
    | Except.error msg =>
      (Except.error (s1, msg),
        [ Step.loadModule, Step.resolveContainer, Step.constructApp ])
    | Except.ok app =>
      let s2 := { s1 with saltApp := some app }
      let s3 := renderSvg s2
      let s4 := setupEventListeners s3
      let s5 := setupResizeObserver s4
      (Except.ok s5, fullStepOrder)

/-- What a run of `initApp` was observed to do. -/
inductive InitOutcome where
  /-- the `try` block completed; success is logged. -/
  | success
  /-- the `catch` ran with `container` non-null: the error is logged and
  the container displays the given HTML. -/
  | displayedError (html : String)
  /-- the `catch` ran with `container` null: the error is logged by
  `console.error`, then `container.innerHTML = ...` itself throws a
  TypeError, so nothing is displayed. -/
  | crashInCatch (loggedMsg : String)
deriving Repr, DecidableEq

/-- The inline error markup built in the `catch` block. -/
def errorHTML (msg : String) : String :=
  "<div style=\"color: red; padding: 20px;\">Error: " ++ msg ++ "</div>"

/-- `initApp()` with its `catch` handler.  On an exception the handler
logs the error and assigns `errorHTML` to `container.innerHTML`; if
`container` is null at that moment the assignment itself throws. -/
def initApp (s : St) (loadRes : Except String Unit) (domC : Option Elem)
    (mkApp : Except String AppHandle) : St × InitOutcome :=
  match (initAppTry s loadRes domC mkApp).1 with
  | Except.ok s2 => (s2, InitOutcome.success)
  | Except.error (sE, msg) =>
    match sE.container with
    | some c =>
      ({ sE with container := some { c with innerHTML := errorHTML msg } },
        InitOutcome.displayedError (errorHTML msg))
    | none => (sE, InitOutcome.crashInCatch msg)

/-- The initial module-level state: all three globals null, no
listeners, nothing logged. -/
def st0 : St :=
  { saltApp := none, container := none, resizeObserver := none,
    oldObservers := [], listeners := [], calls := [] }

/-- Number of live ResizeObserver instances currently observing the
container. -/
def activeObsCount (s : St) : ℕ :=
  (s.oldObservers.filter (fun o => o.observing)).length +
    (match s.resizeObserver with
     | some o => if o.observing then 1 else 0
     | none => 0)

/-- DOM event dispatch: `handleEvent` runs for an event only when a
listener for its type is registered on the container. -/
def dispatchMouse (s : St) (e : MouseEvent) : Except String St :=
  if s.listeners.contains e.type then handleEvent s e else Except.ok s

/-- An external stimulus in steady state: a mouse event delivered by
the DOM, or a batch of resize entries delivered to the observer
callback. -/
inductive SteadyAct where
  | mouse (e : MouseEvent)
  | resize (entries : List ResizeEntry)

/-- One steady-state step. -/
def steadyStep (s : St) : SteadyAct → Except String St
  | SteadyAct.mouse e => dispatchMouse s e
  | SteadyAct.resize es => Except.ok (resizeCallback s es)

/-- A run of steady-state stimuli, stopping at the first uncaught
exception. -/
def steadyRun (s : St) : List SteadyAct → Except String St
  | [] => Except.ok s
  | a :: rest =>
    match steadyStep s a with
    | Except.ok s2 => steadyRun s2 rest
    | Except.error msg => Except.error msg

/-- Listener soundness: listeners are registered on the container only
if the container reference is non-null. -/
def listenerSafe (s : St) : Prop := s.listeners ≠ [] → s.container.isSome = true

/-! ### Concrete instances used in witnesses and counterexamples -/

/-- A fixed markup string returned by the example handle's render. -/
def markupConst : String := "<svg></svg>"

/-- The rejection message of the module-load scenario. -/
def netErr : String := "network error"

/-- Container geometry of the worked scenario: top-left (20, 60),
size 400 by 300. -/
def exRect : Rect := { left := 20, top := 60, width := 400, height := 300 }

/-- A container element with the scenario geometry and empty content. -/
def exElem : Elem := { rect := exRect, innerHTML := "" }

/-- An example application handle whose event handler always reports a
state change. -/
def exApp : AppHandle :=
  { appState := 0,
    renderFn := fun _ _ _ => markupConst,
    handleFn := fun st _ _ _ => (true, st + 1) }

/-- An example application handle whose event handler never reports a
state change. -/
def exAppF : AppHandle :=
  { appState := 0,
    renderFn := fun _ _ _ => markupConst,
    handleFn := fun st _ _ _ => (false, st) }

/-- A fully initialized steady state with the always-changed handle. -/
def exSt : St :=
  { saltApp := some exApp, container := some exElem, resizeObserver := none,
    oldObservers := [], listeners := eventTypes, calls := [] }

/-- The same steady state with the never-changed handle. -/
def exStF : St := { exSt with saltApp := some exAppF }

/-- The mouse-down of the worked scenario, at client (120, 160). -/
def exEv : MouseEvent := { type := "mousedown", clientX := 120, clientY := 160 }

/-- A state with an application handle but a null container: the
faulting configuration of `handleEvent`. -/
def badSt : St := { st0 with saltApp := some exApp }

/-- A state holding an actively observing ResizeObserver and a
container, for the repeated-install witness. -/
def stWithObs : St :=
  { st0 with container := some exElem, resizeObserver := some { observing := true } }

/-! ### Helper lemmas -/

theorem afterHandleCall_container (s : St) (e : MouseEvent) (app : AppHandle) (c : Elem) :
    (afterHandleCall s e app c).1.container = s.container := rfl

theorem afterHandleCall_listeners (s : St) (e : MouseEvent) (app : AppHandle) (c : Elem) :
    (afterHandleCall s e app c).1.listeners = s.listeners := rfl

theorem afterHandleCall_calls (s : St) (e : MouseEvent) (app : AppHandle) (c : Elem) :
    (afterHandleCall s e app c).1.calls =
      s.calls ++ [ Call.handle e.type (e.clientX - c.rect.left) (e.clientY - c.rect.top) ] := rfl

theorem renderSvg_container_isSome (s : St) :
    (renderSvg s).container.isSome = s.container.isSome := by
  rcases hA : s.saltApp with _ | app <;> rcases hC : s.container with _ | c <;>
    simp [renderSvg, hA, hC]

theorem renderSvg_listeners (s : St) : (renderSvg s).listeners = s.listeners := by
  rcases hA : s.saltApp with _ | app <;> rcases hC : s.container with _ | c <;>
    simp [renderSvg, hA, hC]

theorem renderSvg_calls_append (s : St) : ∃ extra, (renderSvg s).calls = s.calls ++ extra := by
  rcases hA : s.saltApp with _ | app <;> rcases hC : s.container with _ | c
  · exact ⟨[], by simp [renderSvg, hA, hC]⟩
  · exact ⟨[], by simp [renderSvg, hA, hC]⟩
  · exact ⟨[], by simp [renderSvg, hA, hC]⟩
  · exact ⟨[ Call.render (jsFloor c.rect.width) (jsFloor c.rect.height) ],
      by simp [renderSvg, hA, hC]⟩

theorem handleEvent_unfold (s : St) (e : MouseEvent) (app : AppHandle) (c : Elem)
    (hA : s.saltApp = some app) (hC : s.container = some c) :
    handleEvent s e = Except.ok
      (if (afterHandleCall s e app c).2 then renderSvg (afterHandleCall s e app c).1
       else (afterHandleCall s e app c).1) := by
  simp [handleEvent, hA, hC]

theorem resizeCallback_preserves (entries : List ResizeEntry) (s : St) :
    (resizeCallback s entries).container.isSome = s.container.isSome ∧
    (resizeCallback s entries).listeners = s.listeners := by
  induction entries generalizing s with
  | nil => exact ⟨rfl, rfl⟩
  | cons e rest ih =>
    have hstep : resizeCallback s (e :: rest) =
        resizeCallback (if e.targetIsContainer && s.saltApp.isSome then renderSvg s else s)
          rest := rfl
    rw [hstep]
    cases hb : e.targetIsContainer && s.saltApp.isSome with
    | false => simpa [hb] using ih s
    | true =>
      have h1 := ih (renderSvg s)
      simp only [hb, if_true] at *
      exact ⟨by rw [h1.1, renderSvg_container_isSome],
             by rw [h1.2, renderSvg_listeners]⟩

theorem handleEvent_ok_preserves (s : St) (e : MouseEvent) (s2 : St)
    (h : handleEvent s e = Except.ok s2) :
    s2.container.isSome = s.container.isSome ∧ s2.listeners = s.listeners := by
  rcases hA : s.saltApp with _ | app
  · have hs : s2 = s := by
      rw [handleEvent] at h
      simp [hA] at h
      exact h.symm
    rw [hs]; exact ⟨rfl, rfl⟩
  · rcases hC : s.container with _ | c
    · rw [handleEvent] at h; simp [hA, hC] at h
    · rw [handleEvent_unfold s e app c hA hC] at h
      simp at h
      cases hb : (afterHandleCall s e app c).2 with
      | false =>
        rw [hb] at h
        simp at h
        subst h
        rw [afterHandleCall_container, afterHandleCall_listeners, hC]
        exact ⟨rfl, rfl⟩
      | true =>
        rw [hb] at h
        simp at h
        subst h
        rw [renderSvg_container_isSome, renderSvg_listeners,
          afterHandleCall_container, afterHandleCall_listeners, hC]
        exact ⟨rfl, rfl⟩

theorem handleEvent_ok_exists (s : St) (e : MouseEvent)
    (h : s.container.isSome = true) : ∃ s2, handleEvent s e = Except.ok s2 := by
  rcases hA : s.saltApp with _ | app
  · exact ⟨s, by simp [handleEvent, hA]⟩
  · rcases hC : s.container with _ | c
    · rw [hC] at h; simp at h
    · exact ⟨_, handleEvent_unfold s e app c hA hC⟩

theorem dispatchMouse_safe (s : St) (e : MouseEvent) (hs : listenerSafe s) :
    ∃ s2, dispatchMouse s e = Except.ok s2 ∧ listenerSafe s2 := by
  cases hmem : s.listeners.contains e.type with
  | false =>
    have hnm : e.type ∉ s.listeners := by simpa using hmem
    exact ⟨s, by simp [dispatchMouse, hnm], hs⟩
  | true =>
    have hm : e.type ∈ s.listeners := by simpa using hmem
    have hne : s.listeners ≠ [] := List.ne_nil_of_mem hm
    obtain ⟨s2, h2⟩ := handleEvent_ok_exists s e (hs hne)
    have hp := handleEvent_ok_preserves s e s2 h2
    refine ⟨s2, by simp [dispatchMouse, hm, h2], ?_⟩
    intro hne2
    rw [hp.1, hs (hp.2 ▸ hne2)]

theorem steadyRun_ok (acts : List SteadyAct) (s : St) (hs : listenerSafe s) :
    ∃ s2, steadyRun s acts = Except.ok s2 := by
  induction acts generalizing s with
  | nil => exact ⟨s, rfl⟩
  | cons a rest ih =>
    cases a with
    | mouse e =>
      obtain ⟨s2, h2, hs2⟩ := dispatchMouse_safe s e hs
      obtain ⟨s3, h3⟩ := ih s2 hs2
      exact ⟨s3, by simp [steadyRun, steadyStep, h2, h3]⟩
    | resize es =>
      have hs2 : listenerSafe (resizeCallback s es) := by
        intro hne
        have hp := resizeCallback_preserves es s
        rw [hp.1]
        exact hs (hp.2 ▸ hne)
      obtain ⟨s3, h3⟩ := ih _ hs2
      exact ⟨s3, by simp [steadyRun, steadyStep, h3]⟩

theorem initApp_listenerSafe (l : Except String Unit) (d : Option Elem)
    (m : Except String AppHandle) : listenerSafe (initApp st0 l d m).1 := by
  cases l with
  | error msg =>
    intro hne
    simp [initApp, initAppTry, st0] at hne
  | ok u =>
    cases m with
    | error msg =>
      cases d with
      | none =>
        intro hne
        simp [initApp, initAppTry, st0] at hne
      | some c =>
        intro hne
        simp [initApp, initAppTry, st0]
    | ok app =>
      cases d with
      | none =>
        intro hne
        simp [initApp, initAppTry, st0, renderSvg, setupEventListeners,
          setupResizeObserver] at hne
      | some c =>
        intro hne
        simp [initApp, initAppTry, st0, renderSvg, setupEventListeners,
          setupResizeObserver]

theorem filter_observing_nil (t : List Observer)
    (ht : ∀ o ∈ t, o.observing = false) :
    t.filter (fun o => o.observing) = [] := by
  induction t with
  | nil => rfl
  | cons o rest ih =>
    have ho := ht o (by simp)
    have hrest := ih (fun o2 h2 => ht o2 (List.mem_cons_of_mem o h2))
    simp [List.filter, ho, hrest]

theorem activeObsCount_eq (s : St) (h : ∀ o ∈ s.oldObservers, o.observing = false) :
    activeObsCount s =
      (match s.resizeObserver with
       | some o => if o.observing then 1 else 0
       | none => 0) := by
  rw [activeObsCount, filter_observing_nil s.oldObservers h]
  simp

/-! ### Claim theorems -/

/-- C1: The claim that every initialization failure ends with the
container displaying the failure's description fails on the code: when
the module load rejects (here with message "network error"), the
`container` variable has not yet been assigned — `getElementById` runs
only after the `await` — so the catch handler's
`container.innerHTML = ...` dereferences null and itself throws; the
error is logged but nothing is displayed, even though the element
exists in the document. -/
theorem initApp_loadFailure_crashes :
    (initApp st0 (Except.error netErr) (some exElem) (Except.ok exApp)).2 =
      InitOutcome.crashInCatch netErr ∧
    (initApp st0 (Except.error netErr) (some exElem) (Except.ok exApp)).1.container =
      none :=
  ⟨rfl, rfl⟩

/-- C2: `renderSvg` is a no-op when the application handle or the
container is absent; otherwise it calls the handle's render operation
with exactly the floor of the container's measured width and height and
replaces the container's entire content with the returned markup
string. -/
theorem renderSvg_spec (s : St) :
    (s.saltApp = none ∨ s.container = none → renderSvg s = s) ∧
    (∀ app c, s.saltApp = some app → s.container = some c →
      renderSvg s = { s with
        container := some { c with
          innerHTML := app.renderFn app.appState (jsFloor c.rect.width)
            (jsFloor c.rect.height) },
        calls := s.calls ++
          [ Call.render (jsFloor c.rect.width) (jsFloor c.rect.height) ] }) := by
  constructor
  · rintro (h | h)
    · rcases hC : s.container with _ | c <;> simp [renderSvg, h, hC]
    · rcases hA : s.saltApp with _ | app <;> simp [renderSvg, h, hA]
  · intro app c hA hC
    simp [renderSvg, hA, hC]

/-- Witness for C2 at a concrete fully initialized state. -/
theorem renderSvg_spec_witness :
    renderSvg exSt = { exSt with
      container := some { exElem with
        innerHTML := exApp.renderFn exApp.appState (jsFloor exRect.width)
          (jsFloor exRect.height) },
      calls := exSt.calls ++
        [ Call.render (jsFloor exRect.width) (jsFloor exRect.height) ] } :=
  (renderSvg_spec exSt).2 exApp exElem rfl rfl

/-- C3: when the application handle and the container both exist,
`handleEvent` passes the event's own type string through unmodified and
passes coordinates equal to the client coordinates minus the
container's bounding-rectangle top-left offset. -/
theorem handleEvent_coords (s : St) (e : MouseEvent) (app : AppHandle) (c : Elem)
    (hA : s.saltApp = some app) (hC : s.container = some c) :
    ∃ s2 rest, handleEvent s e = Except.ok s2 ∧
      s2.calls = s.calls ++
        Call.handle e.type (e.clientX - c.rect.left) (e.clientY - c.rect.top) :: rest := by
  have hunf := handleEvent_unfold s e app c hA hC
  cases hflag : (afterHandleCall s e app c).2 with
  | false =>
    refine ⟨(afterHandleCall s e app c).1, [], ?_, ?_⟩
    · rw [hunf, hflag]
      simp
    · rw [afterHandleCall_calls]
  | true =>
    obtain ⟨extra, hextra⟩ := renderSvg_calls_append (afterHandleCall s e app c).1
    refine ⟨renderSvg (afterHandleCall s e app c).1, extra, ?_, ?_⟩
    · rw [hunf, hflag]
      simp
    · rw [hextra, afterHandleCall_calls]
      simp

/-- Witness for C3: the worked scenario — a mouse-down at client
(120, 160) with the container's top-left at (20, 60) reaches the handle
as a call with coordinates (100, 100) and the unmodified type string. -/
theorem handleEvent_coords_witness :
    ∃ s2 rest, handleEvent exSt exEv = Except.ok s2 ∧
      s2.calls = Call.handle exEv.type 100 100 :: rest := by
  obtain ⟨s2, rest, h1, h2⟩ := handleEvent_coords exSt exEv exApp exElem rfl rfl
  refine ⟨s2, rest, h1, ?_⟩
  rw [h2]
  norm_num [exSt, exEv, exElem, exRect]

/-- C4: `handleEvent` triggers `renderSvg` exactly when the handle's
`handle_mouse_event` call returns true; on a false return no render is
performed — the state after the call has the container's content
unchanged and the call log extended by the handle call alone, with no
render call. -/
theorem handleEvent_render_iff (s : St) (e : MouseEvent) (app : AppHandle) (c : Elem)
    (hA : s.saltApp = some app) (hC : s.container = some c) :
    ((afterHandleCall s e app c).2 = true →
      handleEvent s e = Except.ok (renderSvg (afterHandleCall s e app c).1)) ∧
    ((afterHandleCall s e app c).2 = false →
      handleEvent s e = Except.ok (afterHandleCall s e app c).1 ∧
      (afterHandleCall s e app c).1.container = s.container ∧
      (afterHandleCall s e app c).1.calls = s.calls ++
        [ Call.handle e.type (e.clientX - c.rect.left) (e.clientY - c.rect.top) ]) := by
  have hunf := handleEvent_unfold s e app c hA hC
  constructor
  · intro h
    rw [hunf, h]
    simp
  · intro h
    refine ⟨?_, afterHandleCall_container s e app c, afterHandleCall_calls s e app c⟩
    rw [hunf, h]
    simp

/-- Witness for C4 at a concrete state whose handle reports no change:
no render call is made and the container's content is untouched. -/
theorem handleEvent_render_iff_witness :
    handleEvent exStF exEv = Except.ok (afterHandleCall exStF exEv exAppF exElem).1 ∧
    (afterHandleCall exStF exEv exAppF exElem).1.container = exStF.container ∧
    (afterHandleCall exStF exEv exAppF exElem).1.calls = exStF.calls ++
      [ Call.handle exEv.type (exEv.clientX - exElem.rect.left)
          (exEv.clientY - exElem.rect.top) ] :=
  (handleEvent_render_iff exStF exEv exAppF exElem rfl rfl).2 rfl

/-- C5 counterexample: with the container element absent and every
other step succeeding, `initApp` completes successfully — no exception
is raised, contradicting the claim that initialization fails fatally
with an exception caught by the error handler. -/
theorem initApp_missingContainer_success :
    (initApp st0 (Except.ok ()) none (Except.ok exApp)).2 = InitOutcome.success :=
  rfl

/-- C5 amended: if the container element with the fixed identifier is
absent, the Bootstrapper raises no exception at all: `getElementById`
yields null without throwing, initialization runs to completion
(outcome success), and the guarded render, listener-installation and
observe steps are no-ops — no listener is installed, no boundary call
is made, the fresh observer observes nothing, and no user-visible
error surface is produced. -/
theorem initApp_missingContainer_silent (app : AppHandle) :
    (initApp st0 (Except.ok ()) none (Except.ok app)).2 = InitOutcome.success ∧
    (initApp st0 (Except.ok ()) none (Except.ok app)).1.container = none ∧
    (initApp st0 (Except.ok ()) none (Except.ok app)).1.listeners = [] ∧
    (initApp st0 (Except.ok ()) none (Except.ok app)).1.calls = [] ∧
    (initApp st0 (Except.ok ()) none (Except.ok app)).1.resizeObserver =
      some { observing := false } :=
  ⟨rfl, rfl, rfl, rfl, rfl⟩

/-- C6: the ResizeObserver callback processes its entries in order;
for each entry it renders exactly when the entry's target is the
container and the application handle exists — the decision depends on
nothing else, in particular not on any return value of the handle
(no "changed" gating as for mouse events). -/
theorem resizeCallback_spec (s : St) (e : ResizeEntry) (rest : List ResizeEntry) :
    resizeCallback s [] = s ∧
    resizeCallback s (e :: rest) =
      resizeCallback (if e.targetIsContainer && s.saltApp.isSome then renderSvg s
        else s) rest :=
  ⟨rfl, rfl⟩

/-- C7: provided every observer in the graveyard is already
disconnected, installing the resize watcher keeps the graveyard fully
disconnected, leaves at most one active observation, and a second
install leaves exactly as many active observations as the first — so
repeated installs cannot accumulate observers and a single resize
cannot fire duplicate callbacks. -/
theorem setupResizeObserver_single_active (s : St)
    (h : ∀ o ∈ s.oldObservers, o.observing = false) :
    (∀ o ∈ (setupResizeObserver s).oldObservers, o.observing = false) ∧
    activeObsCount (setupResizeObserver s) ≤ 1 ∧
    activeObsCount (setupResizeObserver (setupResizeObserver s)) =
      activeObsCount (setupResizeObserver s) := by
  have hold : ∀ o ∈ (setupResizeObserver s).oldObservers, o.observing = false := by
    intro o ho
    rw [setupResizeObserver] at ho
    simp at ho
    rcases ho with ho | ho
    · exact h o ho
    · rcases hR : s.resizeObserver with _ | o0 <;> rw [hR] at ho <;> simp at ho
      rw [← ho]
  refine ⟨hold, ?_, ?_⟩
  · rw [activeObsCount_eq (setupResizeObserver s) hold]
    simp only [setupResizeObserver]
    split <;> simp
  · have hold2 : ∀ o ∈ (setupResizeObserver (setupResizeObserver s)).oldObservers,
        o.observing = false := by
      intro o ho
      rw [setupResizeObserver] at ho
      simp at ho
      rcases ho with ho | ho
      · exact hold o ho
      · rw [← ho.2]
    rw [activeObsCount_eq _ hold2, activeObsCount_eq _ hold]
    simp [setupResizeObserver]

/-- Witness for C7 at a state that already holds an actively observing
handle: after installing again (and again), at most one observation is
ever active and the second install adds none. -/
theorem setupResizeObserver_single_active_witness :
    (∀ o ∈ (setupResizeObserver stWithObs).oldObservers, o.observing = false) ∧
    activeObsCount (setupResizeObserver stWithObs) ≤ 1 ∧
    activeObsCount (setupResizeObserver (setupResizeObserver stWithObs)) =
      activeObsCount (setupResizeObserver stWithObs) := by
  refine setupResizeObserver_single_active stWithObs ?_
  intro o ho
  simp [stWithObs, st0] at ho

/-- C8: the bootstrap's executed step trace is always a prefix of the
canonical six-step order (load module, resolve container, construct
handle, initial render, install listeners, install resize watcher), and
it is the full sequence exactly when no step threw — an exception at
any step prevents every subsequent step from executing. -/
theorem initApp_step_order (s : St) (l : Except String Unit) (d : Option Elem)
    (m : Except String AppHandle) :
    (∃ t, (initAppTry s l d m).2 ++ t = fullStepOrder) ∧
    ((∃ s2, (initAppTry s l d m).1 = Except.ok s2) ↔
      (initAppTry s l d m).2 = fullStepOrder) := by
  cases l with
  | error msg =>
    refine ⟨⟨[ Step.resolveContainer, Step.constructApp, Step.initialRender,
      Step.installListeners, Step.installResize ], rfl⟩, ?_⟩
    simp [initAppTry, fullStepOrder]
  | ok u =>
    cases m with
    | error msg =>
      refine ⟨⟨[ Step.initialRender, Step.installListeners, Step.installResize ],
        rfl⟩, ?_⟩
      simp [initAppTry, fullStepOrder]
    | ok app =>
      refine ⟨⟨[], rfl⟩, ?_⟩
      simp [initAppTry]

/-- C9 counterexample: with no container and no prior observer there is
nothing to disconnect, so the claimed frame condition would make the
install the identity; but the install still mutates the module state,
replacing the null `resizeObserver` with a freshly created (inert)
observer. -/
theorem setupResizeObserver_changes_state :
    (setupResizeObserver st0).resizeObserver ≠ st0.resizeObserver := by
  decide

/-- C9 amended: when the container does not yet exist, installing the
resize watcher leaves the container, the application handle, the
listeners and the call log unchanged and attaches no observation, but
it does create a fresh never-observing handle, stores it in the
module-level variable, and moves the disconnected previous handle (if
any) to the graveyard. -/
theorem setupResizeObserver_no_container (s : St) (h : s.container = none) :
    (setupResizeObserver s).container = s.container ∧
    (setupResizeObserver s).saltApp = s.saltApp ∧
    (setupResizeObserver s).listeners = s.listeners ∧
    (setupResizeObserver s).calls = s.calls ∧
    (setupResizeObserver s).resizeObserver = some { observing := false } ∧
    (setupResizeObserver s).oldObservers =
      s.oldObservers ++
        (s.resizeObserver.map (fun o => { o with observing := false })).toList := by
  refine ⟨rfl, rfl, rfl, rfl, ?_, rfl⟩
  simp [setupResizeObserver, h]

/-- Witness for C9's amended statement at the initial state. -/
theorem setupResizeObserver_no_container_witness :
    (setupResizeObserver st0).container = st0.container ∧
    (setupResizeObserver st0).saltApp = st0.saltApp ∧
    (setupResizeObserver st0).listeners = st0.listeners ∧
    (setupResizeObserver st0).calls = st0.calls ∧
    (setupResizeObserver st0).resizeObserver = some { observing := false } ∧
    (setupResizeObserver st0).oldObservers =
      st0.oldObservers ++
        (st0.resizeObserver.map (fun o => { o with observing := false })).toList :=
  setupResizeObserver_no_container st0 rfl

/-- C10: `handleEvent` guards only on the application handle, so with a
handle present and a null container it throws the TypeError from
`container.getBoundingClientRect()`; yet starting from the initial
module state, after any bootstrap outcome and any sequence of
listener-dispatched mouse events and resize notifications, no uncaught
exception ever occurs — listeners are installed only when the container
exists and the container is never nulled again, so the faulting branch
is unreachable through the installed listeners. -/
theorem handleEvent_null_container_unreachable :
    (∀ (s : St) (e : MouseEvent) (app : AppHandle),
      s.saltApp = some app → s.container = none →
      handleEvent s e = Except.error tyErrMsg) ∧
    (∀ (l : Except String Unit) (d : Option Elem) (m : Except String AppHandle)
      (acts : List SteadyAct),
      ∃ s2, steadyRun (initApp st0 l d m).1 acts = Except.ok s2) := by
  constructor
  · intro s e app hA hC
    simp [handleEvent, hA, hC]
  · intro l d m acts
    exact steadyRun_ok acts _ (initApp_listenerSafe l d m)

/-- Witness for C10: the faulting call at a concrete handle-present,
container-null state, and a concrete fully successful bootstrap
followed by a dispatched mouse-down that completes without an
exception. -/
theorem handleEvent_null_container_unreachable_witness :
    handleEvent badSt exEv = Except.error tyErrMsg ∧
    (∃ s2, steadyRun (initApp st0 (Except.ok ()) (some exElem) (Except.ok exApp)).1
      [ SteadyAct.mouse exEv ] = Except.ok s2) :=
  ⟨handleEvent_null_container_unreachable.1 badSt exEv exApp rfl rfl,
   handleEvent_null_container_unreachable.2 (Except.ok ()) (some exElem)
     (Except.ok exApp) [ SteadyAct.mouse exEv ]⟩
